import Mathlib

/-!
Verification of the conversational health-assistant core (chat.py).

This file gives a shallow embedding of the orchestration state machine of
chat.py and of its helper functions, and proves or refutes the frozen claims
about them.  The external collaborators (language model, retriever, SQLite
engine) are modelled as oracles: a record of outcomes (success value or
error) supplied to each run, exactly one outcome per call site, so that the
control flow of the embedded code is the control flow of the source.
-/

namespace HealthAssistant

/-- A chat message: the source accepts dicts with a role and a content key
(role defaults to the string user, content to the empty string). -/
structure Message where
  role : String
  content : String
deriving DecidableEq, Repr

/-- Python str.strip with no argument on a character list: remove whitespace
from both ends. -/
def pyStrip (s : List Char) : List Char :=
  ((s.dropWhile Char.isWhitespace).reverse.dropWhile Char.isWhitespace).reverse

/-- Python str.strip on a Lean string, via its character list. -/
def stripStr (s : String) : String :=
  ⟨pyStrip s.data⟩

/-- The topic literal of AgentState: Literal of ask, update, update_ask in
chat.py line 73. -/
inductive Topic where
  | ask
  | update
  | update_ask
deriving DecidableEq, Repr

/-- ProfileStructure (chat.py lines 104-122): every field independently
optional.  Python float fields are modelled as rationals. -/
structure ProfileStructure where
  name : Option String := none
  dob : Option String := none
  gender : Option String := none
  occupation : Option String := none
  description : Option String := none
  chronic_disease : Option String := none
  weight : Option Int := none
  height : Option Int := none
  steps : Option Int := none
  sleep_hours : Option ℚ := none
  calories_burned : Option ℚ := none
  avg_heart_rate : Option ℚ := none
  active_minutes : Option ℚ := none
deriving DecidableEq, Repr

/-- Result of get_bmi_analysis (chat.py lines 347-365).  The source returns
either the string Unknown or a string rendering the BMI to one decimal next
to its category; we keep the exact rational BMI and the category string,
abstracting only the one-decimal text rendering of the number. -/
inductive BmiResult where
  | unknown
  | value (bmi : ℚ) (category : String)
deriving DecidableEq, Repr

/-- Embedding of get_bmi_analysis (chat.py lines 347-365).  The Python guard
is: if not weight or not height or height <= 0: return Unknown.  Python
truthiness makes a value of zero falsy, so weight 0 and height 0 are guarded
exactly like missing values. -/
def get_bmi_analysis (weight height : Option ℚ) : BmiResult :=
  match weight, height with
  | none, _ => .unknown
  | some _, none => .unknown
  | some w, some h =>
    if w = 0 ∨ h = 0 ∨ h ≤ 0 then .unknown
    else
      let height_m := h / 100
      let bmi := w / height_m ^ 2
      let category :=
        if bmi < 37/2 then "Underweight"
        else if 37/2 ≤ bmi ∧ bmi < 25 then "Normal weight"
        else if 25 ≤ bmi ∧ bmi < 30 then "Overweight"
        else "Obese"
      .value bmi category

/-- Inner loop of the question derivation in generate_response (chat.py
lines 822-838): walk the reversed history; at the first message whose role
is human or user, take its stripped content, substituting the configured
default when that strips to empty, and stop. -/
def derive_question_go (defaultMessage : String) : List Message → String
  | [] => ""
  | m :: rest =>
    if m.role = "human" ∨ m.role = "user" then
      if stripStr m.content = "" then defaultMessage else stripStr m.content
    else derive_question_go defaultMessage rest

/-- Question derivation of generate_response (chat.py lines 822-838): the
question starts as the empty string and the loop scans the history from the
end. -/
def derive_question (messages : List Message) (defaultMessage : String) : String :=
  derive_question_go defaultMessage messages.reverse

/-- Outcomes of the external collaborators for one orchestration run: one
outcome per call site (model calls return a validated structured value or
raise; the retriever and the user fetch are already wrapped in the source, so
only their final effect is recorded).  An error of the Unit type models a
raised exception. -/
structure Oracles where
  /-- Result of the structured severity model call in rate_severity: the
  integer rate field of SeverityRate, or a raised error. -/
  severityOutcome : Except Unit Int
  /-- Result of the structured topic model call in extract_topic: the
  has_info field of TopicChecklist, or a raised error. -/
  topicOutcome : Except Unit Bool
  /-- Result of the structured extraction model call in extract_profile. -/
  profileOutcome : Except Unit ProfileStructure
  /-- Content of the model response in generate_raw, before stripping. -/
  genOutcome : Except Unit String
  /-- Net effect of the retrieval block of load_user_info on the documents
  field: none when retrieval is skipped, empty or fails (all caught). -/
  ragDocuments : Option String
  /-- Result of fetch_user_info inside load_user_info, abstracted to the
  persona text format_user_info would produce for the fetched record; none
  when no row exists or the read fails (caught inside fetch_user_info). -/
  fetchOutcome : Option String
  /-- Whether the just-in-time blank-record insert for a never-seen user id
  succeeds (its failure is caught and leaves the state untouched). -/
  initNewUserOk : Bool

/-- AgentState (chat.py lines 64-87).  The user_info field is abstracted to
the same persona text as user_context (its record content never influences
control flow); invoke_qa keeps only the ordered stage names recorded by
create_invoke_qa, abstracting the prompt and response texts. -/
structure AgentState where
  user_id : Option Int
  messages : List Message
  question : String
  topic : Option Topic
  use_info : Bool
  is_new_user : Bool
  user_info : Option String
  user_context : Option String
  pending_extraction : Option ProfileStructure
  use_rag : Bool
  documents : Option String
  invoke_qa : List String
  severity_rate : Int
  response : String
  interrupted : Bool
deriving DecidableEq, Repr

/-- Node load_user_info (chat.py lines 511-566): the retrieval block runs
first when use_rag is set (every failure caught); then, when use_info holds
and a user id is present, the user record is fetched, a blank row being
inserted for a never-seen id (is_new_user only set when that insert does not
raise, since the assignment sits after it inside the try block). -/
def load_user_info (o : Oracles) (s : AgentState) : AgentState :=
  let docs := if s.use_rag then o.ragDocuments else s.documents
  if s.use_info = false ∨ s.user_id = none then
    { s with documents := docs }
  else
    match o.fetchOutcome with
    | none =>
      if o.initNewUserOk then
        { s with documents := docs, is_new_user := true, user_info := none }
      else
        { s with documents := docs }
    | some info =>
      { s with documents := docs, is_new_user := false,
               user_info := some info, user_context := some info }

/-- Node rate_severity (chat.py lines 569-609): on success the rate is
stored and a QA entry recorded; on any exception the rate defaults to 0. -/
def rate_severity (o : Oracles) (s : AgentState) : AgentState :=
  match o.severityOutcome with
  | .ok rate =>
    { s with severity_rate := rate, invoke_qa := s.invoke_qa ++ ["rate_severity"] }
  | .error _ => { s with severity_rate := 0 }

/-- Router severity_router (chat.py lines 612-622). -/
def severity_router (s : AgentState) : String :=
  if 4 ≤ s.severity_rate then "interrupt" else "continue"

/-- Node severity_interrupt (chat.py lines 625-633). -/
def severity_interrupt (s : AgentState) : AgentState :=
  { s with interrupted := true }

/-- Node extract_topic (chat.py lines 636-665): skipped when the topic is
already set; otherwise has_info yields update_ask, its absence yields ask,
and any exception falls back to ask. -/
def extract_topic (o : Oracles) (s : AgentState) : AgentState :=
  if s.topic ≠ none then s
  else
    match o.topicOutcome with
    | .ok has_info =>
      if has_info then
        { s with topic := some Topic.update_ask,
                 invoke_qa := s.invoke_qa ++ ["extract_topic"] }
      else
        { s with topic := some Topic.ask,
                 invoke_qa := s.invoke_qa ++ ["extract_topic"] }
    | .error _ => { s with topic := some Topic.ask }

/-- Router topic_router (chat.py lines 668-677). -/
def topic_router (s : AgentState) : String :=
  if s.topic = some Topic.ask then "ask" else "update"

/-- Node extract_profile (chat.py lines 680-701): the structured extraction
call is NOT wrapped in a try block, so a model failure propagates. -/
def extract_profile (o : Oracles) (s : AgentState) : Except Unit AgentState :=
  match o.profileOutcome with
  | .ok extracted =>
    .ok { s with pending_extraction := some extracted,
                 invoke_qa := s.invoke_qa ++ ["extract_profile"] }
  | .error e => .error e

/-- Router after_extract_router (chat.py lines 704-713). -/
def after_extract_router (s : AgentState) : String :=
  if s.topic = some Topic.update_ask then "ask" else "end"

/-- Node generate_raw (chat.py lines 716-755): the generation call is NOT
wrapped in a try block, so a model failure propagates; on success the
stripped content becomes the response. -/
def generate_raw (o : Oracles) (s : AgentState) : Except Unit AgentState :=
  match o.genOutcome with
  | .ok content =>
    .ok { s with response := stripStr content,
                 invoke_qa := s.invoke_qa ++ ["generate_raw"] }
  | .error e => .error e

/-- One run of the compiled graph of set_graph_response (chat.py lines
758-802), following its edge table literally; the second component is the
ordered list of nodes entered (on an error the nodes entered before the
raising node).  An error in the first component models an exception leaving
graph.invoke. -/
def runGraph (o : Oracles) (s0 : AgentState) : Except Unit AgentState × List String :=
  let s1 := load_user_info o s0
  let s2 := rate_severity o s1
  let t0 := ["load_user_info", "rate_severity"]
  if severity_router s2 = "interrupt" then
    (.ok (severity_interrupt s2), t0 ++ ["severity_interrupt"])
  else
    let s3 := extract_topic o s2
    let t1 := t0 ++ ["extract_topic"]
    if topic_router s3 = "ask" then
      (generate_raw o s3, t1 ++ ["generate_raw"])
    else
      match extract_profile o s3 with
      | .error e => (.error e, t1 ++ ["extract_profile"])
      | .ok s4 =>
        let t2 := t1 ++ ["extract_profile"]
        if after_extract_router s4 = "ask" then
          (generate_raw o s4, t2 ++ ["generate_raw"])
        else
          (.ok s4, t2)

/-- The initial state built by generate_response (chat.py lines 805-863):
use_info is forced off without a user id, the question is derived from the
history, and every other mutable field starts at its neutral value. -/
def init_state (messages : List Message) (user_id : Option Int)
    (topic : Option Topic) (use_info use_rag : Bool)
    (defaultMessage : String) : AgentState :=
  { user_id := user_id
    messages := messages
    question := derive_question messages defaultMessage
    topic := topic
    use_info := if user_id = none then false else use_info
    is_new_user := false
    user_info := none
    user_context := none
    pending_extraction := none
    use_rag := use_rag
    documents := none
    invoke_qa := []
    severity_rate := 0
    response := ""
    interrupted := false }

/-- Embedding of generate_response (chat.py lines 805-866): build the
initial state, run the graph, and return the response paired with the final
state (or the propagated exception). -/
def generate_response (o : Oracles) (messages : List Message)
    (user_id : Option Int) (topic : Option Topic) (use_info use_rag : Bool)
    (defaultMessage : String) : Except Unit (String × AgentState) :=
  (runGraph o (init_state messages user_id topic use_info use_rag defaultMessage)).1.map
    (fun st => (st.response, st))

/-- Row of the Users table for the fixed user id (chat.py lines 429-453):
every profile column independently nullable. -/
structure UsersRow where
  name : Option String
  dob : Option String
  gender : Option String
  occupation : Option String
  description : Option String
  chronic_disease : Option String
deriving DecidableEq, Repr

/-- Row of UserBMIRecords for the fixed (user id, date) key (chat.py lines
455-463). -/
structure BMIRow where
  weight : Option Int
  height : Option Int
deriving DecidableEq, Repr

/-- Row of UserActivityRecords for the fixed (user id, date) key (chat.py
lines 465-482). -/
structure ActivityRow where
  steps : Option Int
  sleep_hours : Option ℚ
  calories_burned : Option ℚ
  avg_heart_rate : Option ℚ
  active_minutes : Option ℚ
deriving DecidableEq, Repr

/-- The slice of the store that one save_extracted_profile call can touch:
the Users row of the user and the BMI and Activity rows of (user, today).
Both deltas of the merge-law claim are taken to be saved on the same day, so
a single row per table suffices. -/
structure DBState where
  users : Option UsersRow
  bmi : Option BMIRow
  activity : Option ActivityRow
deriving DecidableEq, Repr

/-- Condition of the first upsert of save_extracted_profile (chat.py line
431): some user field survives model_dump with exclude_none. -/
def touches_users (d : ProfileStructure) : Bool :=
  d.name.isSome || d.dob.isSome || d.gender.isSome || d.occupation.isSome ||
    d.description.isSome || d.chronic_disease.isSome

/-- Condition of the BMI upsert (chat.py line 456). -/
def touches_bmi (d : ProfileStructure) : Bool :=
  d.weight.isSome || d.height.isSome

/-- Condition of the Activity upsert (chat.py line 467). -/
def touches_activity (d : ProfileStructure) : Bool :=
  d.steps.isSome || d.sleep_hours.isSome || d.calories_burned.isSome ||
    d.avg_heart_rate.isSome || d.active_minutes.isSome

/-- The Users upsert (chat.py lines 432-453): plain insert when no row
exists; on conflict each column becomes COALESCE of the excluded value and
the stored value. -/
def upsert_users (d : ProfileStructure) (row : Option UsersRow) : UsersRow :=
  match row with
  | none =>
    { name := d.name, dob := d.dob, gender := d.gender,
      occupation := d.occupation, description := d.description,
      chronic_disease := d.chronic_disease }
  | some r =>
    { name := d.name <|> r.name, dob := d.dob <|> r.dob,
      gender := d.gender <|> r.gender, occupation := d.occupation <|> r.occupation,
      description := d.description <|> r.description,
      chronic_disease := d.chronic_disease <|> r.chronic_disease }

/-- The BMI upsert (chat.py lines 457-463). -/
def upsert_bmi (d : ProfileStructure) (row : Option BMIRow) : BMIRow :=
  match row with
  | none => { weight := d.weight, height := d.height }
  | some r => { weight := d.weight <|> r.weight, height := d.height <|> r.height }

/-- The Activity upsert (chat.py lines 468-482). -/
def upsert_activity (d : ProfileStructure) (row : Option ActivityRow) : ActivityRow :=
  match row with
  | none =>
    { steps := d.steps, sleep_hours := d.sleep_hours,
      calories_burned := d.calories_burned, avg_heart_rate := d.avg_heart_rate,
      active_minutes := d.active_minutes }
  | some r =>
    { steps := d.steps <|> r.steps, sleep_hours := d.sleep_hours <|> r.sleep_hours,
      calories_burned := d.calories_burned <|> r.calories_burned,
      avg_heart_rate := d.avg_heart_rate <|> r.avg_heart_rate,
      active_minutes := d.active_minutes <|> r.active_minutes }

/-- The combined effect of the three conditional upserts when every
statement succeeds and the transaction commits. -/
def apply_profile (d : ProfileStructure) (db : DBState) : DBState :=
  { users := if touches_users d then some (upsert_users d db.users) else db.users
    bmi := if touches_bmi d then some (upsert_bmi d db.bmi) else db.bmi
    activity := if touches_activity d then some (upsert_activity d db.activity)
                else db.activity }

/-- Per-statement outcomes of the SQLite engine for one
save_extracted_profile call: whether each executed statement and the final
commit succeed. -/
structure DbOutcomes where
  ok_users : Bool
  ok_bmi : Bool
  ok_activity : Bool
  ok_commit : Bool
deriving DecidableEq, Repr

/-- Embedding of save_extracted_profile (chat.py lines 421-489).  The three
upserts and the commit run inside one try block over one implicit SQLite
transaction; the except branch rolls the transaction back, so an error in
any executed statement (or in the commit) leaves the store unchanged, and
only the commit publishes the accumulated changes. -/
def save_extracted_profile (d : ProfileStructure) (db : DBState)
    (o : DbOutcomes) : DBState :=
  if touches_users d && !o.ok_users then db
  else
    let db1 := if touches_users d then { db with users := some (upsert_users d db.users) }
               else db
    if touches_bmi d && !o.ok_bmi then db
    else
      let db2 := if touches_bmi d then { db1 with bmi := some (upsert_bmi d db.bmi) }
                 else db1
      if touches_activity d && !o.ok_activity then db
      else
        let db3 := if touches_activity d then
                     { db2 with activity := some (upsert_activity d db.activity) }
                   else db2
        if !o.ok_commit then db else db3

/-- The all-success engine outcome. -/
def allOk : DbOutcomes := ⟨true, true, true, true⟩

/-- The value of the name column visible for the user, none when the row is
absent. -/
def users_name (db : DBState) : Option String := db.users.bind (fun r => r.name)

/-- The dob column, none when the row is absent. -/
def users_dob (db : DBState) : Option String := db.users.bind (fun r => r.dob)

/-- The gender column, none when the row is absent. -/
def users_gender (db : DBState) : Option String := db.users.bind (fun r => r.gender)

/-- The occupation column, none when the row is absent. -/
def users_occupation (db : DBState) : Option String :=
  db.users.bind (fun r => r.occupation)

/-- The description column, none when the row is absent. -/
def users_description (db : DBState) : Option String :=
  db.users.bind (fun r => r.description)

/-- The chronic_disease column, none when the row is absent. -/
def users_chronic (db : DBState) : Option String :=
  db.users.bind (fun r => r.chronic_disease)

/-- The weight column of the BMI row, none when the row is absent. -/
def bmi_weight (db : DBState) : Option Int := db.bmi.bind (fun r => r.weight)

/-- The height column of the BMI row, none when the row is absent. -/
def bmi_height (db : DBState) : Option Int := db.bmi.bind (fun r => r.height)

/-- The steps column of the Activity row, none when the row is absent. -/
def act_steps (db : DBState) : Option Int := db.activity.bind (fun r => r.steps)

/-- The sleep_hours column, none when the row is absent. -/
def act_sleep (db : DBState) : Option ℚ :=
  db.activity.bind (fun r => r.sleep_hours)

/-- The calories_burned column, none when the row is absent. -/
def act_calories (db : DBState) : Option ℚ :=
  db.activity.bind (fun r => r.calories_burned)

/-- The avg_heart_rate column, none when the row is absent. -/
def act_heart (db : DBState) : Option ℚ :=
  db.activity.bind (fun r => r.avg_heart_rate)

/-- The active_minutes column, none when the row is absent. -/
def act_active (db : DBState) : Option ℚ :=
  db.activity.bind (fun r => r.active_minutes)

/-- Risk literal of HealthSummary (chat.py line 922), enforced by the
schema on the success path. -/
inductive OfficeRisk where
  | low
  | medium
  | high
deriving DecidableEq, Repr

/-- Serialization of the risk literal as model_dump renders it. -/
def OfficeRisk.toStr : OfficeRisk → String
  | .low => "Low"
  | .medium => "Medium"
  | .high => "High"

/-- HealthSummary (chat.py lines 911-934): three independently optional
fields, the risk constrained to the three literals. -/
structure HealthSummary where
  overview : Option String
  office_risk : Option OfficeRisk
  office_summary : Option String
deriving DecidableEq, Repr

/-- The dict generate_summary returns: on the success path the model_dump of
a HealthSummary (risk serialized to its literal text or null); on the
failure path a hand-written fallback dict. -/
structure SummaryDict where
  overview : Option String
  office_risk : Option String
  office_summary : Option String
deriving DecidableEq, Repr

/-- Embedding of generate_summary (chat.py lines 937-1008), restricted to
its result value: the structured model call either yields a validated
HealthSummary (then its dump is returned and persisted) or raises, in which
case the except branch returns the fixed fallback dict whose office_risk is
the string of two dashes.  The second component is the fetched user record,
abstracted to its persona text as elsewhere; the empty initial dict used
when no user id is given is modelled as none. -/
def generate_summary (modelOutcome : Except Unit HealthSummary)
    (user_id : Option Int) (fetchOutcome : Option String) :
    SummaryDict × Option String :=
  let user_info := if user_id.isSome then fetchOutcome else none
  match modelOutcome with
  | .ok s =>
    ({ overview := s.overview,
       office_risk := s.office_risk.map OfficeRisk.toStr,
       office_summary := s.office_summary }, user_info)
  | .error _ =>
    ({ overview := some "ขออภัย ไม่สามารถสรุปข้อมูลได้ในขณะนี้",
       office_risk := some "--",
       office_summary := some "--" }, user_info)

/-- A chat message with its texts as character lists, used for the
conversation formatter where character counting matters: Python strings are
sequences of code points, which List Char models exactly. -/
structure PyMessage where
  role : List Char
  content : List Char
deriving DecidableEq, Repr

/-- The formatted line of format_messages (chat.py line 253): role, a colon
and a space, the stripped content, then a newline. -/
def formatLine (m : PyMessage) : List Char :=
  m.role ++ (':' :: ' ' :: pyStrip m.content) ++ ['\n']

/-- The accumulation loop of format_messages (chat.py lines 242-259) on the
already-reversed history: skip messages with falsy content, stop at the
first line that would push the running total past the budget, keep the rest
in processing order (most recent first). -/
def keepLines (maxChars : Nat) : List PyMessage → Nat → List (List Char)
  | [], _ => []
  | m :: rest, len =>
    if m.content = [] then keepLines maxChars rest len
    else
      let line := formatLine m
      if maxChars < len + line.length then []
      else line :: keepLines maxChars rest (len + line.length)

/-- Embedding of format_messages (chat.py lines 234-263): walk the messages
from most recent to oldest accumulating lines under the character budget,
reverse the kept lines back to chronological order, join and strip. -/
def format_messages (messages : List PyMessage) (maxChars : Nat) : List Char :=
  pyStrip ((keepLines maxChars messages.reverse 0).reverse.flatten)

/-! Shared fixtures and helper lemmas. -/

/-- A baseline oracle record where every external call succeeds with a
neutral value. -/
def oracleBase : Oracles :=
  { severityOutcome := .ok 0
    topicOutcome := .ok false
    profileOutcome := .ok {}
    genOutcome := .ok "OK"
    ragDocuments := none
    fetchOutcome := none
    initNewUserOk := true }

/-- A baseline initial state: empty history, no user id, no caller topic. -/
def state0 : AgentState := init_state [] none none false false "Hello"

theorem load_user_info_topic (o : Oracles) (s : AgentState) :
    (load_user_info o s).topic = s.topic := by
  unfold load_user_info
  repeat' split
  all_goals rfl

theorem load_user_info_severity (o : Oracles) (s : AgentState) :
    (load_user_info o s).severity_rate = s.severity_rate := by
  unfold load_user_info
  repeat' split
  all_goals rfl

theorem load_user_info_response (o : Oracles) (s : AgentState) :
    (load_user_info o s).response = s.response := by
  unfold load_user_info
  repeat' split
  all_goals rfl

theorem load_user_info_interrupted (o : Oracles) (s : AgentState) :
    (load_user_info o s).interrupted = s.interrupted := by
  unfold load_user_info
  repeat' split
  all_goals rfl

theorem rate_severity_topic (o : Oracles) (s : AgentState) :
    (rate_severity o s).topic = s.topic := by
  unfold rate_severity
  cases o.severityOutcome <;> rfl

theorem rate_severity_response (o : Oracles) (s : AgentState) :
    (rate_severity o s).response = s.response := by
  unfold rate_severity
  cases o.severityOutcome <;> rfl

theorem rate_severity_interrupted (o : Oracles) (s : AgentState) :
    (rate_severity o s).interrupted = s.interrupted := by
  unfold rate_severity
  cases o.severityOutcome <;> rfl

theorem rate_severity_rate_ok (o : Oracles) (s : AgentState) (r : Int)
    (h : o.severityOutcome = .ok r) : (rate_severity o s).severity_rate = r := by
  unfold rate_severity
  rw [h]

theorem rate_severity_rate_err (o : Oracles) (s : AgentState)
    (h : o.severityOutcome = .error ()) :
    (rate_severity o s).severity_rate = 0 := by
  unfold rate_severity
  rw [h]

theorem extract_topic_severity (o : Oracles) (s : AgentState) :
    (extract_topic o s).severity_rate = s.severity_rate := by
  unfold extract_topic
  repeat' split
  all_goals rfl

theorem extract_topic_response (o : Oracles) (s : AgentState) :
    (extract_topic o s).response = s.response := by
  unfold extract_topic
  repeat' split
  all_goals rfl

theorem extract_topic_interrupted (o : Oracles) (s : AgentState) :
    (extract_topic o s).interrupted = s.interrupted := by
  unfold extract_topic
  repeat' split
  all_goals rfl

theorem extract_topic_keeps (o : Oracles) (s : AgentState) (h : s.topic ≠ none) :
    (extract_topic o s).topic = s.topic := by
  unfold extract_topic
  rw [if_pos h]

theorem extract_topic_assigns (o : Oracles) (s : AgentState) (h : s.topic = none) :
    (extract_topic o s).topic = some Topic.ask ∨
    (extract_topic o s).topic = some Topic.update_ask := by
  unfold extract_topic
  rw [if_neg (by simp [h])]
  rcases o.topicOutcome with e | b
  · left; rfl
  · cases b
    · left; rfl
    · right; rfl

theorem extract_profile_ok (o : Oracles) (s s4 : AgentState)
    (h : extract_profile o s = .ok s4) :
    s4.topic = s.topic ∧ s4.severity_rate = s.severity_rate ∧
    s4.response = s.response ∧ s4.interrupted = s.interrupted := by
  unfold extract_profile at h
  rcases hp : o.profileOutcome with e | p
  · rw [hp] at h; cases h
  · rw [hp] at h
    cases h
    exact ⟨rfl, rfl, rfl, rfl⟩

theorem generate_raw_ok (o : Oracles) (s s4 : AgentState)
    (h : generate_raw o s = .ok s4) :
    ∃ g, o.genOutcome = .ok g ∧ s4.response = stripStr g ∧
      s4.topic = s.topic ∧ s4.severity_rate = s.severity_rate ∧
      s4.interrupted = s.interrupted := by
  unfold generate_raw at h
  rcases hg : o.genOutcome with e | g
  · rw [hg] at h; cases h
  · rw [hg] at h
    cases h
    exact ⟨g, rfl, rfl, rfl, rfl, rfl⟩

/-! Claim C7: the BMI analysis. -/

/-- Claim C7, counterexample: a present weight of zero with a positive
height is not a missing weight and has positive height, yet the code
returns Unknown, where the formula of the claim gives BMI zero, hence the
Underweight classification. -/
theorem get_bmi_analysis_zero_weight_cex :
    get_bmi_analysis (some 0) (some 160) = BmiResult.unknown ∧
    (some (0 : ℚ) ≠ none ∧ some (160 : ℚ) ≠ none ∧ ¬((160 : ℚ) ≤ 0)) ∧
    (0 : ℚ) / (((160 : ℚ) / 100) ^ 2) < 37 / 2 := by
  refine ⟨by norm_num [get_bmi_analysis], ⟨by simp, by simp, by norm_num⟩, by norm_num⟩

/-- Claim C7, amended: the analysis returns Unknown exactly when weight is
missing or zero, or height is missing, zero or negative; otherwise it
computes BMI as weight over the square of height in metres and classifies it
by the stated thresholds; in particular 60 kg at 160 cm is Normal weight and
90 kg at 160 cm is Obese. -/
theorem get_bmi_analysis_spec (w h : Option ℚ) :
    (get_bmi_analysis w h = BmiResult.unknown ↔
      (w = none ∨ w = some 0 ∨ h = none ∨ ∃ x, h = some x ∧ x ≤ 0)) ∧
    (∀ wv hv, w = some wv → h = some hv → wv ≠ 0 → 0 < hv →
      get_bmi_analysis w h =
        BmiResult.value (wv / (hv / 100) ^ 2)
          (if wv / (hv / 100) ^ 2 < 37 / 2 then "Underweight"
           else if wv / (hv / 100) ^ 2 < 25 then "Normal weight"
           else if wv / (hv / 100) ^ 2 < 30 then "Overweight"
           else "Obese")) ∧
    get_bmi_analysis (some 60) (some 160) = BmiResult.value (375 / 16) "Normal weight" ∧
    get_bmi_analysis (some 90) (some 160) = BmiResult.value (1125 / 32) "Obese" := by
  refine ⟨?_, ?_, ?_, ?_⟩
  · rcases w with _ | wv
    · simp [get_bmi_analysis]
    · rcases h with _ | hv
      · simp [get_bmi_analysis]
      · by_cases hc : wv = 0 ∨ hv = 0 ∨ hv ≤ 0
        · have hl : get_bmi_analysis (some wv) (some hv) = BmiResult.unknown := by
            simp only [get_bmi_analysis]
            exact if_pos hc
          refine iff_of_true hl ?_
          rcases hc with hc | hc | hc
          · exact Or.inr (Or.inl (by rw [hc]))
          · exact Or.inr (Or.inr (Or.inr ⟨hv, rfl, le_of_eq hc⟩))
          · exact Or.inr (Or.inr (Or.inr ⟨hv, rfl, hc⟩))
        · have hl : get_bmi_analysis (some wv) (some hv) ≠ BmiResult.unknown := by
            simp only [get_bmi_analysis]
            rw [if_neg hc]
            simp
          push_neg at hc
          refine iff_of_false hl ?_
          rintro (hx | hx | hx | ⟨x, hx, hxle⟩)
          · exact Option.some_ne_none _ hx
          · exact hc.1 (Option.some_inj.mp hx)
          · exact Option.some_ne_none _ hx
          · rw [Option.some_inj.mp hx] at hc
            exact absurd hxle (not_le.mpr hc.2.2)
  · rintro wv hv rfl rfl hw hh
    have hbmi : get_bmi_analysis (some wv) (some hv) =
        BmiResult.value (wv / (hv / 100) ^ 2)
          (if wv / (hv / 100) ^ 2 < 37 / 2 then "Underweight"
           else if 37 / 2 ≤ wv / (hv / 100) ^ 2 ∧ wv / (hv / 100) ^ 2 < 25 then
             "Normal weight"
           else if 25 ≤ wv / (hv / 100) ^ 2 ∧ wv / (hv / 100) ^ 2 < 30 then
             "Overweight"
           else "Obese") := by
      simp only [get_bmi_analysis]
      rw [if_neg (by push_neg; exact ⟨hw, hh.ne', hh⟩)]
    rw [hbmi]
    congr 1
    by_cases h1 : wv / (hv / 100) ^ 2 < 37 / 2
    · rw [if_pos h1, if_pos h1]
    · rw [if_neg h1, if_neg h1]
      by_cases h2 : wv / (hv / 100) ^ 2 < 25
      · rw [if_pos ⟨not_lt.mp h1, h2⟩, if_pos h2]
      · rw [if_neg (fun hx => h2 hx.2), if_neg h2]
        by_cases h3 : wv / (hv / 100) ^ 2 < 30
        · rw [if_pos ⟨not_lt.mp h2, h3⟩, if_pos h3]
        · rw [if_neg (fun hx => h3 hx.2), if_neg h3]
  · norm_num [get_bmi_analysis]
  · norm_num [get_bmi_analysis]

/-- Witness for the amended C7 theorem at weight 60 and height 160. -/
theorem get_bmi_analysis_spec_witness :
    get_bmi_analysis (some 60) (some 160) =
      BmiResult.value ((60 : ℚ) / (((160 : ℚ) / 100) ^ 2))
        (if (60 : ℚ) / (((160 : ℚ) / 100) ^ 2) < 37 / 2 then "Underweight"
         else if (60 : ℚ) / (((160 : ℚ) / 100) ^ 2) < 25 then "Normal weight"
         else if (60 : ℚ) / (((160 : ℚ) / 100) ^ 2) < 30 then "Overweight"
         else "Obese") :=
  (get_bmi_analysis_spec (some 60) (some 160)).2.1 60 160 rfl rfl
    (by norm_num) (by norm_num)

/-! Claim C3: the topic classification mapping. -/

/-- Claim C3, counterexample: the classifier checklist carries only
has_info, and extract_topic maps has_info to update_ask and everything else
(including a failure) to ask, so the topic update is not reachable from any
classifier outcome, contradicting the stated three-way precedence. -/
theorem extract_topic_update_unreachable_cex :
    (extract_topic { oracleBase with topicOutcome := .ok true } state0).topic =
      some Topic.update_ask ∧
    (extract_topic { oracleBase with topicOutcome := .ok false } state0).topic =
      some Topic.ask ∧
    (extract_topic { oracleBase with topicOutcome := .error () } state0).topic =
      some Topic.ask := by
  exact ⟨rfl, rfl, rfl⟩

/-- Claim C3, amended: when no topic was pre-supplied, classification maps
has_info to update_ask and its absence (or a classification failure) to ask;
only those two topics are reachable from classification, the topic update
being reachable only from a caller-supplied topic. -/
theorem extract_topic_spec (o : Oracles) (s : AgentState) (h : s.topic = none) :
    (o.topicOutcome = .ok true → (extract_topic o s).topic = some Topic.update_ask) ∧
    (o.topicOutcome = .ok false → (extract_topic o s).topic = some Topic.ask) ∧
    (o.topicOutcome = .error () → (extract_topic o s).topic = some Topic.ask) ∧
    (extract_topic o s).topic ≠ some Topic.update := by
  unfold extract_topic
  rw [if_neg (by simp [h])]
  rcases ht : o.topicOutcome with e | b
  · simp
  · cases b <;> simp

/-- Witness for the amended C3 theorem: a has_info outcome on the baseline
state yields the topic update_ask. -/
theorem extract_topic_spec_witness :
    (extract_topic { oracleBase with topicOutcome := .ok true } state0).topic =
      some Topic.update_ask :=
  (extract_topic_spec { oracleBase with topicOutcome := .ok true } state0 rfl).1 rfl

/-! Claim C8: the question derivation of generate_response. -/

/-- Claim C8, counterexample: a history without any user-role message leaves
the question as the empty string, it is not replaced by the configured
default, contradicting the parenthetical of the claim. -/
theorem derive_question_no_user_cex :
    derive_question [{ role := "assistant", content := "hi" }] "Hello!" = "" ∧
    ("" : String) ≠ "Hello!" := by
  exact ⟨by decide, by decide⟩

theorem derive_question_go_skip (d : String) (l1 l2 : List Message)
    (h : ∀ m2 ∈ l1, ¬(m2.role = "human" ∨ m2.role = "user")) :
    derive_question_go d (l1 ++ l2) = derive_question_go d l2 := by
  induction l1 with
  | nil => rfl
  | cons a t ih =>
    rw [List.cons_append]
    conv_lhs => rw [derive_question_go]
    rw [if_neg (h a (by simp))]
    exact ih (fun m2 hm => h m2 (by simp [hm]))

/-- Claim C8, amended: the question is the stripped content of the last
user-role message (role human or user) scanning from the end, the default
being substituted only when such a message is found and its content strips
to empty; when no user-role message exists, the question stays the empty
string. -/
theorem derive_question_spec (messages pre suf : List Message) (m : Message)
    (d : String) :
    ((∀ m2 ∈ messages, ¬(m2.role = "human" ∨ m2.role = "user")) →
      derive_question messages d = "") ∧
    (messages = pre ++ m :: suf →
      (m.role = "human" ∨ m.role = "user") →
      (∀ m2 ∈ suf, ¬(m2.role = "human" ∨ m2.role = "user")) →
      derive_question messages d =
        (if stripStr m.content = "" then d else stripStr m.content)) := by
  constructor
  · intro h
    unfold derive_question
    have := derive_question_go_skip d messages.reverse []
      (fun m2 hm => h m2 (List.mem_reverse.mp hm))
    rw [List.append_nil] at this
    rw [this]
    rfl
  · rintro rfl hm hsuf
    unfold derive_question
    rw [List.reverse_append, List.reverse_cons, List.append_assoc,
      derive_question_go_skip d suf.reverse _
        (fun m2 hm2 => hsuf m2 (List.mem_reverse.mp hm2)),
      List.singleton_append]
    conv_lhs => rw [derive_question_go]
    rw [if_pos hm]

/-- Witness for the amended C8 theorem on a one-message user history. -/
theorem derive_question_spec_witness :
    derive_question [{ role := "user", content := " hi " }] "D" = "hi" := by
  have h := (derive_question_spec [{ role := "user", content := " hi " }] []
    [] { role := "user", content := " hi " } "D").2 rfl (Or.inr rfl) (by simp)
  rw [h]
  decide

/-! Claim C1: the severity gate. -/

theorem runGraph_interrupt (o : Oracles) (s0 : AgentState)
    (h : 4 ≤ (rate_severity o (load_user_info o s0)).severity_rate) :
    runGraph o s0 =
      (.ok (severity_interrupt (rate_severity o (load_user_info o s0))),
       ["load_user_info", "rate_severity", "severity_interrupt"]) := by
  have hr : severity_router (rate_severity o (load_user_info o s0)) = "interrupt" := by
    unfold severity_router
    rw [if_pos h]
  simp only [runGraph, hr]
  simp

theorem runGraph_trace_continue (o : Oracles) (s0 : AgentState)
    (h : ¬ 4 ≤ (rate_severity o (load_user_info o s0)).severity_rate) :
    "extract_topic" ∈ (runGraph o s0).2 := by
  have hr : severity_router (rate_severity o (load_user_info o s0)) = "continue" := by
    unfold severity_router
    rw [if_neg h]
  simp only [runGraph, hr]
  rw [if_neg (by decide : ¬ ("continue" : String) = "interrupt")]
  split
  · simp
  · split
    · simp
    · split
      · simp
      · simp

/-- Claim C1: for every invocation, when the severity rater returns a rate
of at least 4 the run ends at the severity_interrupt terminal with
interrupted true, the response still empty and no generation node entered
(the trace is exactly load_user_info, rate_severity, severity_interrupt);
when the rate is below 4 the run proceeds to the extract_topic stage. -/
theorem severity_gate (o : Oracles) (messages : List Message) (uid : Option Int)
    (tp : Option Topic) (ui ur : Bool) (d : String) (r : Int)
    (hok : o.severityOutcome = .ok r) :
    (4 ≤ r → ∃ st,
      (runGraph o (init_state messages uid tp ui ur d)).1 = .ok st ∧
      st.interrupted = true ∧ st.response = "" ∧
      (runGraph o (init_state messages uid tp ui ur d)).2 =
        ["load_user_info", "rate_severity", "severity_interrupt"]) ∧
    (r < 4 → "extract_topic" ∈ (runGraph o (init_state messages uid tp ui ur d)).2) := by
  have hrate := rate_severity_rate_ok o
    (load_user_info o (init_state messages uid tp ui ur d)) r hok
  constructor
  · intro h4
    rw [runGraph_interrupt o _ (by rw [hrate]; exact h4)]
    refine ⟨_, rfl, rfl, ?_, rfl⟩
    show (rate_severity o (load_user_info o (init_state messages uid tp ui ur d))).response = ""
    rw [rate_severity_response, load_user_info_response]
    rfl
  · intro hlt
    exact runGraph_trace_continue o _ (by rw [hrate]; exact not_le.mpr hlt)

/-- Witness for C1 with a severity rate of 5 on the baseline run. -/
theorem severity_gate_witness :
    ∃ st, (runGraph { oracleBase with severityOutcome := .ok 5 } state0).1 = .ok st ∧
      st.interrupted = true ∧ st.response = "" ∧
      (runGraph { oracleBase with severityOutcome := .ok 5 } state0).2 =
        ["load_user_info", "rate_severity", "severity_interrupt"] :=
  (severity_gate { oracleBase with severityOutcome := .ok 5 } [] none none false false
    "Hello" 5 rfl).1 (by norm_num)

/-- Exhaustive description of the non-interrupt branches of one run. -/
theorem runGraph_continue_cases (o : Oracles) (s0 : AgentState)
    (h : ¬ 4 ≤ (rate_severity o (load_user_info o s0)).severity_rate) :
    (topic_router (extract_topic o (rate_severity o (load_user_info o s0))) = "ask" ∧
      runGraph o s0 =
        (generate_raw o (extract_topic o (rate_severity o (load_user_info o s0))),
         ["load_user_info", "rate_severity", "extract_topic", "generate_raw"])) ∨
    (¬ topic_router (extract_topic o (rate_severity o (load_user_info o s0))) = "ask" ∧
      ((∃ e, extract_profile o (extract_topic o (rate_severity o (load_user_info o s0))) =
          .error e ∧
        runGraph o s0 =
          (.error e, ["load_user_info", "rate_severity", "extract_topic",
            "extract_profile"])) ∨
       (∃ s4, extract_profile o (extract_topic o (rate_severity o (load_user_info o s0))) =
          .ok s4 ∧
        ((after_extract_router s4 = "ask" ∧
           runGraph o s0 =
             (generate_raw o s4, ["load_user_info", "rate_severity", "extract_topic",
               "extract_profile", "generate_raw"])) ∨
         (¬ after_extract_router s4 = "ask" ∧
           runGraph o s0 =
             (.ok s4, ["load_user_info", "rate_severity", "extract_topic",
               "extract_profile"])))))) := by
  have hr : severity_router (rate_severity o (load_user_info o s0)) = "continue" := by
    unfold severity_router
    rw [if_neg h]
  simp only [runGraph, hr]
  rw [if_neg (by decide : ¬ ("continue" : String) = "interrupt")]
  split
  · next ht => exact Or.inl ⟨ht, rfl⟩
  · next ht =>
      split
      · next e hp => exact Or.inr ⟨ht, Or.inl ⟨e, hp, rfl⟩⟩
      · next s4 hp =>
          split
          · next ha => exact Or.inr ⟨ht, Or.inr ⟨s4, hp, Or.inl ⟨ha, rfl⟩⟩⟩
          · next ha => exact Or.inr ⟨ht, Or.inr ⟨s4, hp, Or.inr ⟨ha, rfl⟩⟩⟩

/-! Claim C2: containment of model failures. -/

/-- Oracle record where only the extraction model call fails. -/
def oracleProfileFail : Oracles :=
  { oracleBase with topicOutcome := .ok true, profileOutcome := .error () }

/-- Claim C2, counterexample: with a benign severity, a topic classification
that detects info, and a failing extraction model call, the exception of
extract_profile leaves the orchestration graph: the run ends in an error,
not in a terminal state. -/
theorem extract_profile_error_escapes_cex :
    (runGraph oracleProfileFail state0).1 = .error () := by rfl

theorem extract_topic_on_err (o : Oracles) (s : AgentState)
    (h1 : s.topic = none) (h2 : o.topicOutcome = .error ()) :
    (extract_topic o s).topic = some Topic.ask := by
  unfold extract_topic
  rw [if_neg (by simp [h1]), h2]

/-- Claim C2, amended: provided the extraction and generation model calls
succeed (they are not wrapped in a try block, so their failures do
propagate), every severity or topic classification failure is contained:
the run still reaches a terminal state, a severity failure leaves
severity_rate at 0, and a topic failure on a run that reaches the topic
stage with no caller-supplied topic yields the topic ask. -/
theorem graph_contains_classifier_failures (o : Oracles) (messages : List Message)
    (uid : Option Int) (tp : Option Topic) (ui ur : Bool) (d : String)
    (p : ProfileStructure) (g : String)
    (hp : o.profileOutcome = .ok p) (hg : o.genOutcome = .ok g) :
    ∃ st, (runGraph o (init_state messages uid tp ui ur d)).1 = .ok st ∧
      (o.severityOutcome = .error () → st.severity_rate = 0) ∧
      ("extract_topic" ∈ (runGraph o (init_state messages uid tp ui ur d)).2 →
        tp = none → o.topicOutcome = .error () → st.topic = some Topic.ask) := by
  have htp2 : (rate_severity o (load_user_info o (init_state messages uid tp ui ur d))).topic
      = tp := by
    rw [rate_severity_topic, load_user_info_topic]
    rfl
  by_cases h4 : 4 ≤ (rate_severity o
      (load_user_info o (init_state messages uid tp ui ur d))).severity_rate
  · have heq := runGraph_interrupt o (init_state messages uid tp ui ur d) h4
    refine ⟨_, by rw [heq], ?_, ?_⟩
    · intro he
      exfalso
      rw [rate_severity_rate_err o _ he] at h4
      exact absurd h4 (by norm_num)
    · intro hmem
      rw [heq] at hmem
      simp at hmem
  · rcases runGraph_continue_cases o (init_state messages uid tp ui ur d) h4 with
      ⟨ht, heq⟩ | ⟨ht, hrest⟩
    · have hgen : generate_raw o (extract_topic o (rate_severity o
          (load_user_info o (init_state messages uid tp ui ur d)))) =
          .ok { extract_topic o (rate_severity o
                  (load_user_info o (init_state messages uid tp ui ur d))) with
                response := stripStr g
                invoke_qa := (extract_topic o (rate_severity o
                  (load_user_info o (init_state messages uid tp ui ur d)))).invoke_qa
                  ++ ["generate_raw"] } := by
        unfold generate_raw
        rw [hg]
      refine ⟨_, by rw [heq]; exact hgen, ?_, ?_⟩
      · intro he
        show (extract_topic o (rate_severity o
          (load_user_info o (init_state messages uid tp ui ur d)))).severity_rate = 0
        rw [extract_topic_severity]
        exact rate_severity_rate_err o _ he
      · intro _ htpn hterr
        show (extract_topic o (rate_severity o
          (load_user_info o (init_state messages uid tp ui ur d)))).topic = some Topic.ask
        exact extract_topic_on_err o _ (htp2.trans htpn) hterr
    · rcases hrest with ⟨e, hpe, _⟩ | ⟨s4, hps4, hsub⟩
      · exfalso
        unfold extract_profile at hpe
        rw [hp] at hpe
        cases hpe
      · have hfields := extract_profile_ok o _ s4 hps4
        have htopic_contra : tp = none → o.topicOutcome = .error () → False := by
          intro htpn hterr
          apply ht
          unfold topic_router
          rw [if_pos (extract_topic_on_err o _ (htp2.trans htpn) hterr)]
        rcases hsub with ⟨ha, heq⟩ | ⟨ha, heq⟩
        · have hgen : generate_raw o s4 =
              .ok { s4 with
                    response := stripStr g
                    invoke_qa := s4.invoke_qa ++ ["generate_raw"] } := by
            unfold generate_raw
            rw [hg]
          refine ⟨_, by rw [heq]; exact hgen, ?_, ?_⟩
          · intro he
            show s4.severity_rate = 0
            rw [hfields.2.1, extract_topic_severity]
            exact rate_severity_rate_err o _ he
          · intro _ htpn hterr
            exact absurd (htopic_contra htpn hterr) not_false
        · refine ⟨s4, by rw [heq], ?_, ?_⟩
          · intro he
            rw [hfields.2.1, extract_topic_severity]
            exact rate_severity_rate_err o _ he
          · intro _ htpn hterr
            exact absurd (htopic_contra htpn hterr) not_false

/-- Oracle record where both classifier calls fail but extraction and
generation succeed. -/
def oracleClassifierFail : Oracles :=
  { oracleBase with
    severityOutcome := .error ()
    topicOutcome := .error () }

/-- Witness for the amended C2 theorem: both classifier calls fail while
extraction and generation succeed; the run terminates with severity 0. -/
theorem graph_contains_classifier_failures_witness :
    ∃ st, (runGraph oracleClassifierFail state0).1 = .ok st ∧
      (oracleClassifierFail.severityOutcome = .error () → st.severity_rate = 0) :=
  match graph_contains_classifier_failures oracleClassifierFail
    [] none none false false "Hello" {} "OK" rfl rfl with
  | ⟨st, h1, h2, _⟩ => ⟨st, h1, h2⟩

/-! Claim C4: the response-or-interrupt invariant. -/

/-- Initial state of a run with the caller-supplied topic update, as the
update-user command of the front end issues it. -/
def stateUpd : AgentState := init_state [] none (some Topic.update) false false "Hello"

/-- Claim C4, counterexample: a run with the caller-supplied topic update
(severity benign, extraction succeeding) reaches a terminal state in which
interrupted is false AND the response is empty, so neither disjunct of the
claimed invariant holds. -/
theorem update_path_neither_cex :
    (runGraph oracleBase stateUpd).1.map (fun st => (st.interrupted, st.response)) =
      .ok (false, "") := by rfl

/-- Claim C4, amended: for every run whose caller-supplied topic is not
update and whose generation model output does not strip to empty, a
terminal state has exactly one of interrupted true (with the response still
empty) or a non-empty response (with interrupted false); the update-only
path is the exception the counterexample exhibits. -/
theorem response_xor (o : Oracles) (messages : List Message) (uid : Option Int)
    (tp : Option Topic) (ui ur : Bool) (d : String) (st : AgentState)
    (htp : tp ≠ some Topic.update)
    (hgen : ∀ g, o.genOutcome = .ok g → stripStr g ≠ "")
    (hrun : (runGraph o (init_state messages uid tp ui ur d)).1 = .ok st) :
    (st.interrupted = true ∧ st.response = "") ∨
    (st.interrupted = false ∧ st.response ≠ "") := by
  by_cases h4 : 4 ≤ (rate_severity o
      (load_user_info o (init_state messages uid tp ui ur d))).severity_rate
  · rw [runGraph_interrupt o _ h4] at hrun
    have hst : severity_interrupt (rate_severity o
        (load_user_info o (init_state messages uid tp ui ur d))) = st := by
      simpa using hrun
    left
    rw [← hst]
    refine ⟨rfl, ?_⟩
    show (rate_severity o
      (load_user_info o (init_state messages uid tp ui ur d))).response = ""
    rw [rate_severity_response, load_user_info_response]
    rfl
  · rcases runGraph_continue_cases o (init_state messages uid tp ui ur d) h4 with
      ⟨ht, heq⟩ | ⟨ht, hrest⟩
    · rw [heq] at hrun
      obtain ⟨g, hg, hresp, _, _, hint⟩ := generate_raw_ok o _ st hrun
      right
      refine ⟨?_, by rw [hresp]; exact hgen g hg⟩
      rw [hint, extract_topic_interrupted, rate_severity_interrupted,
        load_user_info_interrupted]
      rfl
    · rcases hrest with ⟨e, hpe, heq⟩ | ⟨s4, hps4, hsub⟩
      · rw [heq] at hrun
        simp at hrun
      · rcases hsub with ⟨ha, heq⟩ | ⟨ha, heq⟩
        · rw [heq] at hrun
          obtain ⟨g, hg, hresp, _, _, hint⟩ := generate_raw_ok o s4 st hrun
          right
          refine ⟨?_, by rw [hresp]; exact hgen g hg⟩
          rw [hint, (extract_profile_ok o _ s4 hps4).2.2.2, extract_topic_interrupted,
            rate_severity_interrupted, load_user_info_interrupted]
          rfl
        · exfalso
          have ht4 := (extract_profile_ok o _ s4 hps4).1
          have hna : s4.topic ≠ some Topic.update_ask := by
            intro hx
            apply ha
            unfold after_extract_router
            rw [if_pos hx]
          have hnask : (extract_topic o (rate_severity o
              (load_user_info o (init_state messages uid tp ui ur d)))).topic ≠
              some Topic.ask := by
            intro hx
            apply ht
            unfold topic_router
            rw [if_pos hx]
          cases htp0 : (rate_severity o
              (load_user_info o (init_state messages uid tp ui ur d))).topic with
          | none =>
            rcases extract_topic_assigns o _ htp0 with hA | hU
            · exact hnask hA
            · exact hna (ht4.trans hU)
          | some t =>
            have hkeep := extract_topic_keeps o
              (rate_severity o (load_user_info o (init_state messages uid tp ui ur d)))
              (by rw [htp0]; simp)
            have htpeq : tp = some t := by
              have hback : (rate_severity o
                  (load_user_info o (init_state messages uid tp ui ur d))).topic = tp := by
                rw [rate_severity_topic, load_user_info_topic]
                rfl
              rw [← hback, htp0]
            cases t with
            | ask => exact hnask (by rw [hkeep, htp0])
            | update => exact htp htpeq
            | update_ask => exact hna (by rw [ht4, hkeep, htp0])

/-- Witness for the amended C4 theorem on a baseline run: the terminal state
has interrupted false and a non-empty response. -/
theorem response_xor_witness :
    ∃ st, (runGraph oracleBase state0).1 = .ok st ∧
      ((st.interrupted = true ∧ st.response = "") ∨
       (st.interrupted = false ∧ st.response ≠ "")) := by
  obtain ⟨st, hst⟩ : ∃ st, (runGraph oracleBase state0).1 = .ok st := ⟨_, rfl⟩
  exact ⟨st, hst, response_xor oracleBase [] none none false false "Hello" st
    (by simp) (fun g hg => by cases hg; decide) hst⟩

/-! Claim C5: the conversation formatter. -/

theorem dropWhile_eq_self_of_prefix {α : Type} (p : α → Bool) :
    ∀ (L l : List α), l <+: List.dropWhile p L → List.dropWhile p l = l := by
  intro L
  induction L with
  | nil =>
    intro l h
    rw [List.dropWhile_nil, List.prefix_nil] at h
    rw [h, List.dropWhile_nil]
  | cons a A ih =>
    intro l h
    rw [List.dropWhile_cons] at h
    by_cases hpa : p a = true
    · rw [if_pos hpa] at h
      exact ih l h
    · rw [if_neg hpa] at h
      cases l with
      | nil => rfl
      | cons x t =>
        obtain ⟨r, hr⟩ := h
        have hx : x = a := by
          have hh := congrArg List.head? hr
          simpa using hh
        rw [List.dropWhile_cons, hx, if_neg hpa]

theorem dropWhile_idem {α : Type} (p : α → Bool) (l : List α) :
    List.dropWhile p (List.dropWhile p l) = List.dropWhile p l :=
  dropWhile_eq_self_of_prefix p l _ (List.prefix_refl _)

theorem dropWhile_pyStrip (s : List Char) :
    List.dropWhile Char.isWhitespace (pyStrip s) = pyStrip s := by
  apply dropWhile_eq_self_of_prefix Char.isWhitespace s
  have h : List.dropWhile Char.isWhitespace
      ((List.dropWhile Char.isWhitespace s).reverse) <:+
      (List.dropWhile Char.isWhitespace s).reverse :=
    List.dropWhile_suffix _
  have h2 : (List.dropWhile Char.isWhitespace
      ((List.dropWhile Char.isWhitespace s).reverse)).reverse.reverse <:+
      (List.dropWhile Char.isWhitespace s).reverse := by
    rwa [List.reverse_reverse]
  exact List.reverse_suffix.mp h2

theorem dropWhile_pyStrip_reverse (s : List Char) :
    List.dropWhile Char.isWhitespace (pyStrip s).reverse = (pyStrip s).reverse := by
  unfold pyStrip
  simp only [List.reverse_reverse]
  exact dropWhile_idem _ _

theorem pyStrip_append_ws (xs w : List Char)
    (hw : ∀ x ∈ w, Char.isWhitespace x) :
    pyStrip (xs ++ w) = pyStrip xs := by
  unfold pyStrip
  rw [List.dropWhile_append]
  by_cases hxs : (List.dropWhile Char.isWhitespace xs).isEmpty = true
  · rw [if_pos hxs]
    rw [List.dropWhile_eq_nil_iff.mpr hw]
    rw [List.isEmpty_iff.mp hxs]
  · rw [if_neg hxs]
    rw [List.reverse_append, List.dropWhile_append,
      List.dropWhile_eq_nil_iff.mpr (fun x hx => hw x (List.mem_reverse.mp hx))]
    simp

theorem strip_append_suffix_aux (P c : List Char)
    (h1 : List.dropWhile Char.isWhitespace c = c)
    (h2 : List.dropWhile Char.isWhitespace c.reverse = c.reverse) :
    c <:+ pyStrip (P ++ c) := by
  unfold pyStrip
  rw [List.dropWhile_append]
  by_cases hP : (List.dropWhile Char.isWhitespace P).isEmpty = true
  · rw [if_pos hP, h1, h2, List.reverse_reverse]
  · rw [if_neg hP]
    by_cases hc : c = []
    · rw [hc]
      exact List.nil_suffix
    · rw [List.reverse_append, List.dropWhile_append, h2,
        if_neg (by simp [hc] : ¬ (c.reverse.isEmpty = true)),
        List.reverse_append]
      simp only [List.reverse_reverse]
      exact List.suffix_append _ _

theorem pyStrip_suffix (P s : List Char) :
    pyStrip s <:+ pyStrip (P ++ pyStrip s) :=
  strip_append_suffix_aux P (pyStrip s) (dropWhile_pyStrip s)
    (dropWhile_pyStrip_reverse s)

theorem pyStrip_length_le (s : List Char) : (pyStrip s).length ≤ s.length := by
  unfold pyStrip
  rw [List.length_reverse]
  calc (List.dropWhile Char.isWhitespace
          (List.dropWhile Char.isWhitespace s).reverse).length
      ≤ (List.dropWhile Char.isWhitespace s).reverse.length :=
        (List.dropWhile_sublist _).length_le
    _ = (List.dropWhile Char.isWhitespace s).length := List.length_reverse _
    _ ≤ s.length := (List.dropWhile_sublist _).length_le

theorem keepLines_skip (N : Nat) (l1 l2 : List PyMessage) (len : Nat)
    (h : ∀ m2 ∈ l1, m2.content = []) :
    keepLines N (l1 ++ l2) len = keepLines N l2 len := by
  induction l1 with
  | nil => rfl
  | cons a t ih =>
    rw [List.cons_append]
    conv_lhs => rw [keepLines]
    rw [if_pos (h a (by simp))]
    exact ih (fun m2 hm => h m2 (by simp [hm]))

theorem keepLines_budget (N : Nat) : ∀ (msgs : List PyMessage) (len : Nat),
    keepLines N msgs len = [] ∨
    len + ((keepLines N msgs len).map List.length).sum ≤ N := by
  intro msgs
  induction msgs with
  | nil =>
    intro len
    left
    rfl
  | cons m rest ih =>
    intro len
    simp only [keepLines]
    split
    · exact ih len
    · split
      · left
        rfl
      · next hcond =>
          right
          rcases ih (len + (formatLine m).length) with h0 | hle
          · rw [h0]
            simp only [List.map_cons, List.map_nil, List.sum_cons, List.sum_nil]
            omega
          · simp only [List.map_cons, List.sum_cons]
            omega

theorem format_messages_length_le (msgs : List PyMessage) (N : Nat) :
    (format_messages msgs N).length ≤ N := by
  unfold format_messages
  refine le_trans (pyStrip_length_le _) ?_
  rw [List.length_flatten, List.map_reverse, List.sum_reverse]
  rcases keepLines_budget N msgs.reverse 0 with h0 | hle
  · rw [h0]
    simp
  · simpa using hle

/-- Claim C5, counterexample: with max_chars 3 the single non-empty message
hello cannot fit even alone (its line is 12 characters), the loop stops
before keeping it, and the returned text is empty: the most recent non-empty
message does not appear, contradicting the unconditional inclusion claim. -/
theorem format_messages_drops_recent_cex :
    format_messages [{ role := "user".toList, content := "hello".toList }] 3 = [] ∧
    ¬ (pyStrip ("hello".toList) <:+:
        format_messages [{ role := "user".toList, content := "hello".toList }] 3) ∧
    ("hello".toList ≠ ([] : List Char)) := by
  exact ⟨by decide, by decide, by decide⟩

/-- Claim C5, amended: the returned text has length at most max_chars (with
no slack at all: the loop stops strictly before exceeding the budget), and
the stripped content of the most recent message with non-empty content
appears in the returned text whenever the formatted line of that message
fits within max_chars on its own. -/
theorem format_messages_spec (messages : List PyMessage) (N : Nat) :
    (format_messages messages N).length ≤ N ∧
    (∀ pre m suf, messages = pre ++ m :: suf → m.content ≠ [] →
      (∀ m2 ∈ suf, m2.content = []) →
      (formatLine m).length ≤ N →
      pyStrip m.content <:+: format_messages messages N) := by
  refine ⟨format_messages_length_le messages N, ?_⟩
  rintro pre m suf rfl hm hsuf hfit
  unfold format_messages
  rw [List.reverse_append, List.reverse_cons, List.append_assoc,
    keepLines_skip N suf.reverse _ 0 (fun m2 hm2 => hsuf m2 (List.mem_reverse.mp hm2)),
    List.singleton_append]
  simp only [keepLines]
  rw [if_neg hm, if_neg (by omega : ¬ N < 0 + (formatLine m).length)]
  simp only [List.reverse_cons, List.flatten_append, List.flatten_cons,
    List.flatten_nil, List.append_nil]
  have harg : (keepLines N pre.reverse (0 + (formatLine m).length)).reverse.flatten ++
        formatLine m =
      (((keepLines N pre.reverse (0 + (formatLine m).length)).reverse.flatten ++
          (m.role ++ [':', ' '])) ++ pyStrip m.content) ++ ['\n'] := by
    unfold formatLine
    simp [List.append_assoc]
  rw [harg, pyStrip_append_ws _ ['\n'] (by decide)]
  exact List.IsSuffix.isInfix (pyStrip_suffix _ m.content)

/-- Witness for the amended C5 theorem: one short user message within a
budget of 100 characters is kept and its content appears. -/
theorem format_messages_spec_witness :
    pyStrip ("hello".toList) <:+:
      format_messages [{ role := "user".toList, content := "hello".toList }] 100 :=
  (format_messages_spec [{ role := "user".toList, content := "hello".toList }] 100).2
    [] { role := "user".toList, content := "hello".toList } [] rfl (by decide)
    (by simp) (by decide)

/-! Claims C6 and C10: the profile save operation. -/

theorem save_allOk (d : ProfileStructure) (db : DBState) :
    save_extracted_profile d db allOk = apply_profile d db := by
  cases htu : touches_users d <;> cases htb : touches_bmi d <;>
    cases hta : touches_activity d <;>
    simp [save_extracted_profile, apply_profile, allOk, htu, htb, hta]

theorem users_name_law (d : ProfileStructure) (db : DBState) :
    users_name (apply_profile d db) = (d.name <|> users_name db) := by
  unfold users_name apply_profile
  dsimp only
  by_cases h : touches_users d
  · rw [if_pos h]
    unfold upsert_users
    cases db.users with
    | none => simp
    | some r => simp
  · rw [if_neg h]
    have hn : d.name = none := by
      unfold touches_users at h
      cases hd : d.name
      · rfl
      · exact absurd (by rw [hd]; simp) h
    rw [hn]
    simp

theorem users_dob_law (d : ProfileStructure) (db : DBState) :
    users_dob (apply_profile d db) = (d.dob <|> users_dob db) := by
  unfold users_dob apply_profile
  dsimp only
  by_cases h : touches_users d
  · rw [if_pos h]
    unfold upsert_users
    cases db.users with
    | none => simp
    | some r => simp
  · rw [if_neg h]
    have hn : d.dob = none := by
      unfold touches_users at h
      cases hd : d.dob
      · rfl
      · exact absurd (by rw [hd]; simp) h
    rw [hn]
    simp

theorem users_gender_law (d : ProfileStructure) (db : DBState) :
    users_gender (apply_profile d db) = (d.gender <|> users_gender db) := by
  unfold users_gender apply_profile
  dsimp only
  by_cases h : touches_users d
  · rw [if_pos h]
    unfold upsert_users
    cases db.users with
    | none => simp
    | some r => simp
  · rw [if_neg h]
    have hn : d.gender = none := by
      unfold touches_users at h
      cases hd : d.gender
      · rfl
      · exact absurd (by rw [hd]; simp) h
    rw [hn]
    simp

theorem users_occupation_law (d : ProfileStructure) (db : DBState) :
    users_occupation (apply_profile d db) = (d.occupation <|> users_occupation db) := by
  unfold users_occupation apply_profile
  dsimp only
  by_cases h : touches_users d
  · rw [if_pos h]
    unfold upsert_users
    cases db.users with
    | none => simp
    | some r => simp
  · rw [if_neg h]
    have hn : d.occupation = none := by
      unfold touches_users at h
      cases hd : d.occupation
      · rfl
      · exact absurd (by rw [hd]; simp) h
    rw [hn]
    simp

theorem users_description_law (d : ProfileStructure) (db : DBState) :
    users_description (apply_profile d db) = (d.description <|> users_description db) := by
  unfold users_description apply_profile
  dsimp only
  by_cases h : touches_users d
  · rw [if_pos h]
    unfold upsert_users
    cases db.users with
    | none => simp
    | some r => simp
  · rw [if_neg h]
    have hn : d.description = none := by
      unfold touches_users at h
      cases hd : d.description
      · rfl
      · exact absurd (by rw [hd]; simp) h
    rw [hn]
    simp

theorem users_chronic_law (d : ProfileStructure) (db : DBState) :
    users_chronic (apply_profile d db) = (d.chronic_disease <|> users_chronic db) := by
  unfold users_chronic apply_profile
  dsimp only
  by_cases h : touches_users d
  · rw [if_pos h]
    unfold upsert_users
    cases db.users with
    | none => simp
    | some r => simp
  · rw [if_neg h]
    have hn : d.chronic_disease = none := by
      unfold touches_users at h
      cases hd : d.chronic_disease
      · rfl
      · exact absurd (by rw [hd]; simp) h
    rw [hn]
    simp

theorem bmi_weight_law (d : ProfileStructure) (db : DBState) :
    bmi_weight (apply_profile d db) = (d.weight <|> bmi_weight db) := by
  unfold bmi_weight apply_profile
  dsimp only
  by_cases h : touches_bmi d
  · rw [if_pos h]
    unfold upsert_bmi
    cases db.bmi with
    | none => simp
    | some r => simp
  · rw [if_neg h]
    have hn : d.weight = none := by
      unfold touches_bmi at h
      cases hd : d.weight
      · rfl
      · exact absurd (by rw [hd]; simp) h
    rw [hn]
    simp

theorem bmi_height_law (d : ProfileStructure) (db : DBState) :
    bmi_height (apply_profile d db) = (d.height <|> bmi_height db) := by
  unfold bmi_height apply_profile
  dsimp only
  by_cases h : touches_bmi d
  · rw [if_pos h]
    unfold upsert_bmi
    cases db.bmi with
    | none => simp
    | some r => simp
  · rw [if_neg h]
    have hn : d.height = none := by
      unfold touches_bmi at h
      cases hd : d.height
      · rfl
      · exact absurd (by rw [hd]; simp) h
    rw [hn]
    simp

theorem act_steps_law (d : ProfileStructure) (db : DBState) :
    act_steps (apply_profile d db) = (d.steps <|> act_steps db) := by
  unfold act_steps apply_profile
  dsimp only
  by_cases h : touches_activity d
  · rw [if_pos h]
    unfold upsert_activity
    cases db.activity with
    | none => simp
    | some r => simp
  · rw [if_neg h]
    have hn : d.steps = none := by
      unfold touches_activity at h
      cases hd : d.steps
      · rfl
      · exact absurd (by rw [hd]; simp) h
    rw [hn]
    simp

theorem act_sleep_law (d : ProfileStructure) (db : DBState) :
    act_sleep (apply_profile d db) = (d.sleep_hours <|> act_sleep db) := by
  unfold act_sleep apply_profile
  dsimp only
  by_cases h : touches_activity d
  · rw [if_pos h]
    unfold upsert_activity
    cases db.activity with
    | none => simp
    | some r => simp
  · rw [if_neg h]
    have hn : d.sleep_hours = none := by
      unfold touches_activity at h
      cases hd : d.sleep_hours
      · rfl
      · exact absurd (by rw [hd]; simp) h
    rw [hn]
    simp

theorem act_calories_law (d : ProfileStructure) (db : DBState) :
    act_calories (apply_profile d db) = (d.calories_burned <|> act_calories db) := by
  unfold act_calories apply_profile
  dsimp only
  by_cases h : touches_activity d
  · rw [if_pos h]
    unfold upsert_activity
    cases db.activity with
    | none => simp
    | some r => simp
  · rw [if_neg h]
    have hn : d.calories_burned = none := by
      unfold touches_activity at h
      cases hd : d.calories_burned
      · rfl
      · exact absurd (by rw [hd]; simp) h
    rw [hn]
    simp

theorem act_heart_law (d : ProfileStructure) (db : DBState) :
    act_heart (apply_profile d db) = (d.avg_heart_rate <|> act_heart db) := by
  unfold act_heart apply_profile
  dsimp only
  by_cases h : touches_activity d
  · rw [if_pos h]
    unfold upsert_activity
    cases db.activity with
    | none => simp
    | some r => simp
  · rw [if_neg h]
    have hn : d.avg_heart_rate = none := by
      unfold touches_activity at h
      cases hd : d.avg_heart_rate
      · rfl
      · exact absurd (by rw [hd]; simp) h
    rw [hn]
    simp

theorem act_active_law (d : ProfileStructure) (db : DBState) :
    act_active (apply_profile d db) = (d.active_minutes <|> act_active db) := by
  unfold act_active apply_profile
  dsimp only
  by_cases h : touches_activity d
  · rw [if_pos h]
    unfold upsert_activity
    cases db.activity with
    | none => simp
    | some r => simp
  · rw [if_neg h]
    have hn : d.active_minutes = none := by
      unfold touches_activity at h
      cases hd : d.active_minutes
      · rfl
      · exact absurd (by rw [hd]; simp) h
    rw [hn]
    simp

/-- Claim C6: saving delta A and then delta B (all statements succeeding, on
the same day) leaves every stored field equal to the value B captures when B
captures it with a non-null value, and to the value stored after A
otherwise: a null field of B never erases a value stored by A, in the
Users, BMI and Activity tables alike. -/
theorem save_profile_merge_law (A B : ProfileStructure) (db : DBState) :
    let SA := save_extracted_profile A db allOk
    let SAB := save_extracted_profile B SA allOk
    users_name SAB = (B.name <|> users_name SA) ∧
    users_dob SAB = (B.dob <|> users_dob SA) ∧
    users_gender SAB = (B.gender <|> users_gender SA) ∧
    users_occupation SAB = (B.occupation <|> users_occupation SA) ∧
    users_description SAB = (B.description <|> users_description SA) ∧
    users_chronic SAB = (B.chronic_disease <|> users_chronic SA) ∧
    bmi_weight SAB = (B.weight <|> bmi_weight SA) ∧
    bmi_height SAB = (B.height <|> bmi_height SA) ∧
    act_steps SAB = (B.steps <|> act_steps SA) ∧
    act_sleep SAB = (B.sleep_hours <|> act_sleep SA) ∧
    act_calories SAB = (B.calories_burned <|> act_calories SA) ∧
    act_heart SAB = (B.avg_heart_rate <|> act_heart SA) ∧
    act_active SAB = (B.active_minutes <|> act_active SA) := by
  simp only [save_allOk]
  exact ⟨users_name_law B _, users_dob_law B _, users_gender_law B _,
    users_occupation_law B _, users_description_law B _, users_chronic_law B _,
    bmi_weight_law B _, bmi_height_law B _, act_steps_law B _, act_sleep_law B _,
    act_calories_law B _, act_heart_law B _, act_active_law B _⟩

/-- Claim C10: the three upserts of save_extracted_profile run inside one
transaction: if any executed statement (or the commit) fails, the stored
state is left exactly unchanged, and when every executed statement and the
commit succeed, all applicable upserts take effect together. -/
theorem save_profile_atomic (d : ProfileStructure) (db : DBState) (o : DbOutcomes) :
    (save_extracted_profile d db o = db ∨
     save_extracted_profile d db o = apply_profile d db) ∧
    (((touches_users d && !o.ok_users) = true ∨
      (touches_bmi d && !o.ok_bmi) = true ∨
      (touches_activity d && !o.ok_activity) = true ∨
      o.ok_commit = false) →
      save_extracted_profile d db o = db) ∧
    ((touches_users d = true → o.ok_users = true) →
     (touches_bmi d = true → o.ok_bmi = true) →
     (touches_activity d = true → o.ok_activity = true) →
     o.ok_commit = true →
      save_extracted_profile d db o = apply_profile d db) := by
  rcases o with ⟨u, b, a, cm⟩
  cases htu : touches_users d <;> cases htb : touches_bmi d <;>
    cases hta : touches_activity d <;> cases u <;> cases b <;> cases a <;> cases cm <;>
    simp_all [save_extracted_profile, apply_profile]

/-- Witness for the C10 theorem: a failing BMI statement on a delta that
touches the BMI table leaves the store unchanged. -/
theorem save_profile_atomic_witness :
    save_extracted_profile { weight := some 70 }
      { users := none, bmi := none, activity := none }
      { ok_users := true, ok_bmi := false, ok_activity := true, ok_commit := true } =
      { users := none, bmi := none, activity := none } :=
  (save_profile_atomic { weight := some 70 }
    { users := none, bmi := none, activity := none }
    { ok_users := true, ok_bmi := false, ok_activity := true, ok_commit := true }).2.1
    (Or.inr (Or.inl (by decide)))

/-! Claim C9: the summary structure. -/

/-- Claim C9, counterexample: when the summary model call fails, the
fallback dict carries office_risk equal to the two-dash string, which is
neither null nor one of Low, Medium, High, contradicting the claim for the
failure case. -/
theorem generate_summary_fallback_risk_cex :
    (generate_summary (.error ()) none none).1.office_risk = some "--" ∧
    (some "--" : Option String) ≠ none ∧
    ("--" : String) ≠ "Low" ∧ ("--" : String) ≠ "Medium" ∧ ("--" : String) ≠ "High" := by
  exact ⟨rfl, by simp, by decide, by decide, by decide⟩

/-- Claim C9, amended: on the success path the schema constrains office_risk
to null or one of Low, Medium, High; on the failure path the fallback dict
carries the fixed two-dash office_risk instead. -/
theorem generate_summary_spec (outcome : Except Unit HealthSummary)
    (user_id : Option Int) (fetch : Option String) :
    (∀ s, outcome = .ok s →
      ((generate_summary outcome user_id fetch).1.office_risk = none ∨
       (generate_summary outcome user_id fetch).1.office_risk = some "Low" ∨
       (generate_summary outcome user_id fetch).1.office_risk = some "Medium" ∨
       (generate_summary outcome user_id fetch).1.office_risk = some "High")) ∧
    (outcome = .error () →
      (generate_summary outcome user_id fetch).1.office_risk = some "--") := by
  constructor
  · rintro s rfl
    cases hr : s.office_risk with
    | none =>
      left
      simp [generate_summary, hr]
    | some r =>
      cases r with
      | low =>
        right; left
        simp [generate_summary, hr, OfficeRisk.toStr]
      | medium =>
        right; right; left
        simp [generate_summary, hr, OfficeRisk.toStr]
      | high =>
        right; right; right
        simp [generate_summary, hr, OfficeRisk.toStr]
  · rintro rfl
    rfl

/-- A fixed successful summary value with Low risk, used by the witness. -/
def lowSummary : HealthSummary :=
  { overview := none
    office_risk := some OfficeRisk.low
    office_summary := none }

/-- Witness for the amended C9 theorem at a successful Low-risk summary. -/
theorem generate_summary_spec_witness :
    (generate_summary (.ok lowSummary) none none).1.office_risk = none ∨
    (generate_summary (.ok lowSummary) none none).1.office_risk = some "Low" ∨
    (generate_summary (.ok lowSummary) none none).1.office_risk = some "Medium" ∨
    (generate_summary (.ok lowSummary) none none).1.office_risk = some "High" :=
  (generate_summary_spec (.ok lowSummary) none none).1 lowSummary rfl

end HealthAssistant
